import Mathlib

/-!
Shallow embedding of `generate_stats.py`: the event-fetch loop
(`fetch_events`), the aggregation pass (`compute_stats`) and the SVG
renderer (`generate_svg`), together with theorems about them.
-/

set_option maxRecDepth 20000
set_option maxHeartbeats 2000000

namespace GenStats

/-- Embeds the `payload` mapping of one GitHub event, restricted to the
fields the source reads: `commits` (a list, of which only the length is
used; entries kept as opaque strings), `action`, and `ref_type`.
A field absent from the JSON object is `none`. -/
structure Payload where
  commits : Option (List String)
  action : Option String
  ref_type : Option String
deriving DecidableEq

/-- The empty mapping `{}` used by `event.get("payload", {}) or {}`. -/
def emptyPayload : Payload := ⟨none, none, none⟩

/-- Embeds one item of the feed (`RawEvent`): `type` and `created_at` are
`none` when the key is absent, and `payload` is `none` when absent or null
(Python `or {}` also sends a falsy payload to the empty mapping, which
`Option.getD emptyPayload` reproduces for the `none` case). -/
structure RawEvent where
  type : Option String
  created_at : Option String
  payload : Option Payload
deriving DecidableEq

/-- Digits check for a list of characters. -/
def allDigits (l : List Char) : Bool := l.all Char.isDigit

/-- Numeric value of a list of decimal digit characters. -/
def digitsToNat (l : List Char) : Nat :=
  l.foldl (fun a c => 10 * a + (c.toNat - 48)) 0

/-- Validates an optional fractional-seconds suffix: empty, or a dot or
comma followed by one or more digits. Returns the remainder. -/
def splitFraction : List Char → Option (List Char)
  | [] => some []
  | c :: rest =>
    if c = '.' ∨ c = ',' then
      let ds := rest.takeWhile Char.isDigit
      if ds = [] then none else some (rest.drop ds.length)
    else some (c :: rest)

/-- Validates a UTC-offset suffix `±HH:MM`, possibly empty. -/
def validOffset : List Char → Bool
  | [] => true
  | s :: h1 :: h2 :: c :: m1 :: m2 :: [] =>
    (s == '+' || s == '-') && (c == ':') && allDigits [h1, h2, m1, m2] &&
      decide (digitsToNat [h1, h2] < 24) && decide (digitsToNat [m1, m2] < 60)
  | _ => false

/-- Validates a time-of-day suffix `HH:MM[:SS[.ffffff]][±HH:MM]`. -/
def validTime (l : List Char) : Bool :=
  match l with
  | h1 :: h2 :: c1 :: m1 :: m2 :: rest =>
    allDigits [h1, h2, m1, m2] && (c1 == ':') &&
      decide (digitsToNat [h1, h2] < 24) && decide (digitsToNat [m1, m2] < 60) &&
      (match rest with
       | [] => true
       | c2 :: s1 :: s2 :: rest2 =>
         (c2 == ':') && allDigits [s1, s2] && decide (digitsToNat [s1, s2] < 60) &&
           (match splitFraction rest2 with
            | some rest3 => validOffset rest3
            | none => false)
       | rest2 => validOffset rest2)
  | _ => false

/-- Models the year extraction performed by Python
`datetime.fromisoformat(s).year` for the extended ISO-8601 form the feed
uses (`YYYY-MM-DD[{T or space}HH:MM[:SS[.ffffff]][±HH:MM]]`): `none` when
the string does not parse, otherwise the four-digit year. `fromisoformat`
is standard-library code, so it is embedded at this level of detail rather
than transcribed. -/
def fromisoformatYear (s : String) : Option Int :=
  match s.data with
  | y1 :: y2 :: y3 :: y4 :: d1 :: mo1 :: mo2 :: d2 :: dd1 :: dd2 :: rest =>
    if allDigits [y1, y2, y3, y4, mo1, mo2, dd1, dd2] ∧ d1 = '-' ∧ d2 = '-' ∧
        1 ≤ digitsToNat [y1, y2, y3, y4] ∧
        1 ≤ digitsToNat [mo1, mo2] ∧ digitsToNat [mo1, mo2] ≤ 12 ∧
        1 ≤ digitsToNat [dd1, dd2] ∧ digitsToNat [dd1, dd2] ≤ 31 then
      match rest with
      | [] => some (digitsToNat [y1, y2, y3, y4] : Int)
      | sep :: time =>
        if (sep = 'T' ∨ sep = ' ') ∧ validTime time then
          some (digitsToNat [y1, y2, y3, y4] : Int)
        else none
    else none
  | _ => none

/-- Models the Python call `created_at.replace("Z", "+00:00")`: every
occurrence of the character `Z` is replaced by `+00:00` (for a single-char
pattern Python `str.replace` is exactly per-character substitution). -/
def replaceZ : List Char → List Char
  | [] => []
  | c :: cs =>
    if c = 'Z' then '+' :: '0' :: '0' :: ':' :: '0' :: '0' :: replaceZ cs
    else c :: replaceZ cs

/-- The year the fetch loop compares against the target, for one event:
`created_at = event.get("created_at")`, the falsy check
`if not created_at: continue` (absent key or empty string), then
`datetime.fromisoformat(created_at.replace("Z", "+00:00")).year` with a
`ValueError` mapped to `none` (the `except ValueError: continue` path). -/
def eventYear (e : RawEvent) : Option Int :=
  match e.created_at with
  | none => none
  | some s =>
    if s = "" then none
    else fromisoformatYear ⟨replaceZ s.data⟩

end GenStats

namespace GenStats

/-- Counter record built by `compute_stats` (the `stats` dict): six
non-negative counters, field names taken from the source dict keys. -/
structure Stats where
  total_events : Nat
  push_events : Nat
  commits : Nat
  pull_requests_abertos : Nat
  issues_abertas : Nat
  repos_criados : Nat
deriving DecidableEq

/-- The initial all-zero `stats` dict of `compute_stats`. -/
def initStats : Stats := ⟨0, 0, 0, 0, 0, 0⟩

/-- One iteration of the `for event in events` loop of `compute_stats`:
`total_events` always increments; the four classification tests are
independent `if`s exactly as in the source. -/
def stepStats (stats : Stats) (event : RawEvent) : Stats :=
  let stats := { stats with total_events := stats.total_events + 1 }
  let ev_type := event.type
  let payload := event.payload.getD emptyPayload
  let stats :=
    if ev_type = some "PushEvent" then
      { stats with push_events := stats.push_events + 1,
                   commits := stats.commits + (payload.commits.getD []).length }
    else stats
  let stats :=
    if ev_type = some "PullRequestEvent" ∧ payload.action = some "opened" then
      { stats with pull_requests_abertos := stats.pull_requests_abertos + 1 }
    else stats
  let stats :=
    if ev_type = some "IssuesEvent" ∧ payload.action = some "opened" then
      { stats with issues_abertas := stats.issues_abertas + 1 }
    else stats
  let stats :=
    if ev_type = some "CreateEvent" ∧ payload.ref_type = some "repository" then
      { stats with repos_criados := stats.repos_criados + 1 }
    else stats
  stats

/-- Embeds `compute_stats`: fold the per-event step over the list,
starting from the all-zero record. -/
def compute_stats (events : List RawEvent) : Stats :=
  events.foldl stepStats initStats

/-- The `ev_type == "PushEvent"` test of `compute_stats`. -/
def isPushEvent (e : RawEvent) : Bool := e.type = some "PushEvent"

/-- The commits contributed by one event:
`len(payload.get("commits") or [])` on the push branch, else zero. -/
def commitContribution (e : RawEvent) : Nat :=
  if isPushEvent e then ((e.payload.getD emptyPayload).commits.getD []).length
  else 0

/-- The pull-request test of `compute_stats`. -/
def isPROpened (e : RawEvent) : Bool :=
  e.type = some "PullRequestEvent" ∧
    (e.payload.getD emptyPayload).action = some "opened"

/-- The issues test of `compute_stats`. -/
def isIssueOpened (e : RawEvent) : Bool :=
  e.type = some "IssuesEvent" ∧
    (e.payload.getD emptyPayload).action = some "opened"

/-- The repository-creation test of `compute_stats`. -/
def isRepoCreated (e : RawEvent) : Bool :=
  e.type = some "CreateEvent" ∧
    (e.payload.getD emptyPayload).ref_type = some "repository"

/-- One page response of the feed, as the fetch loop observes it:
`status` is `resp.status_code`, `body` is `resp.text` (used only in the
transport-error message), and `events` is `resp.json()` (read only when
the status is 200). -/
structure HttpResponse where
  status : Nat
  body : String
  events : List RawEvent

/-- The two hard failures of `fetch_events`: the `ValueError` raised for an
empty username (`ValidationError` of the spec) and the `RuntimeError`
raised for a non-200 status (`TransportError`), carrying the status code
and response body. -/
inductive FetchError where
  | validation (msg : String)
  | transport (status : Nat) (body : String)
deriving DecidableEq

/-- Outcome of the `for event in page_events` scan of one page: `stop kept`
when an item with `dt.year < year` triggered the early `return` (the items
appended before it), `next kept` when the whole page was scanned. -/
inductive ScanResult where
  | stop (kept : List RawEvent)
  | next (kept : List RawEvent)
deriving DecidableEq

/-- The inner `for event in page_events` loop of `fetch_events`: a missing
or unparsable `created_at` skips the item (`continue`); `dt.year == year`
appends it; `dt.year < year` returns immediately; `dt.year > year` skips
and keeps scanning. -/
def scanPage (year : Int) : List RawEvent → ScanResult
  | [] => .next []
  | e :: rest =>
    match eventYear e with
    | none => scanPage year rest
    | some dty =>
      if dty = year then
        match scanPage year rest with
        | .stop kept => .stop (e :: kept)
        | .next kept => .next (e :: kept)
      else if dty < year then .stop []
      else scanPage year rest

/-- Observable outcome of one call to `fetch_events`: the returned list or
the raised error, together with the page numbers actually requested over
the network (in request order). The trace records the side effect of each
`session.get`; the Python function exposes no other observable state. -/
structure FetchOutcome where
  result : Except FetchError (List RawEvent)
  pagesRequested : List Nat

/-- The `for page in range(1, max_pages + 1)` loop of `fetch_events`,
with `fuel` pages still allowed, starting at page number `page`, with
`acc` the `events_for_year` accumulator. A non-200 status raises; an
empty page breaks out of the loop; an early-terminating page scan returns
mid-page; otherwise the page items kept are appended and the next page is
requested. -/
def fetchLoop (feed : Nat → HttpResponse) (year : Int) :
    Nat → Nat → List RawEvent → FetchOutcome
  | 0, _, acc => ⟨.ok acc, []⟩
  | fuel + 1, page, acc =>
    let resp := feed page
    if resp.status ≠ 200 then
      ⟨.error (.transport resp.status resp.body), [page]⟩
    else if resp.events = [] then ⟨.ok acc, [page]⟩
    else
      match scanPage year resp.events with
      | .stop kept => ⟨.ok (acc ++ kept), [page]⟩
      | .next kept =>
        let rest := fetchLoop feed year fuel (page + 1) (acc ++ kept)
        ⟨rest.result, page :: rest.pagesRequested⟩

/-- Embeds `fetch_events`. The network is abstracted as `feed`, the
response each page number would get; `per_page` is only forwarded to the
feed as a query parameter in the source, so the abstract `feed` already
accounts for it. The empty-username check precedes any request. -/
def fetch_events (feed : Nat → HttpResponse) (username : String) (year : Int)
    (max_pages : Nat := 10) (per_page : Nat := 100) : FetchOutcome :=
  if username = "" then
    ⟨.error (.validation "USERNAME não pode ser vazio."), []⟩
  else fetchLoop feed year max_pages 1 []

/-- The module-level `USERNAME` constant. -/
def USERNAME : String := "BrunoDrezza"

/-- One step of the thousands-grouping of `fmt`, over the digit characters
in reverse order; `k` counts digits emitted since the last separator. -/
def groupRevAux : List Char → Nat → List Char
  | [], _ => []
  | c :: cs, k =>
    if k = 3 then '.' :: c :: groupRevAux cs 1
    else c :: groupRevAux cs (k + 1)

/-- Embeds the local helper `fmt` of `generate_svg`:
Python `f"{n:,}".replace(",", ".")`, i.e. the decimal digits grouped in
threes from the least-significant end, separated by `.`. -/
def fmt (n : Nat) : String := ⟨(groupRevAux (toString n).data.reverse 0).reverse⟩

/-- Literal run of the `generate_svg` f-string before the first `{year}`
insertion. -/
def svgSeg1 : String :=
  "<svg xmlns=\"http://www.w3.org/2000/svg\" width=\"495\" height=\"195\" viewBox=\"0 0 495 195\" role=\"img\" aria-labelledby=\"title desc\">\n  <title id=\"title\">GitHub stats "

/-- Literal run between `{year}` and `{username}` in the title. -/
def svgSeg2 : String := " de "

/-- Literal run between the title `{username}` and the `{year}` of the
description. -/
def svgSeg3 : String :=
  "</title>\n  <desc id=\"desc\">\n    Estatísticas de eventos públicos do GitHub: total de eventos, commits, push events,\n    pull requests abertos, issues abertas e repositórios criados em "

/-- Literal run from the description `{year}` to the heading `{year}`:
the CSS block (the f-string's doubled braces denote literal braces,
written `\x7b`/`\x7d` here), the background rectangles, and the heading
prefix. -/
def svgSeg4 : String :=
  ".\n  </desc>\n\n  <style>\n    .bg \x7b\n      fill: #0d1117;\n    \x7d\n    .card \x7b\n      fill: #161b22;\n      stroke: #30363d;\n      stroke-width: 1;\n    \x7d\n    .title \x7b\n      font: 600 19px system-ui, -apple-system, BlinkMacSystemFont, \"Segoe UI\", sans-serif;\n      fill: #f0f6fc;\n    \x7d\n    .subtitle \x7b\n      font: 400 12px system-ui, -apple-system, BlinkMacSystemFont, \"Segoe UI\", sans-serif;\n      fill: #8b949e;\n    \x7d\n    .label \x7b\n      font: 400 13px system-ui, -apple-system, BlinkMacSystemFont, \"Segoe UI\", sans-serif;\n      fill: #c9d1d9;\n    \x7d\n    .value \x7b\n      font: 600 13px system-ui, -apple-system, BlinkMacSystemFont, \"Segoe UI\", sans-serif;\n      fill: #f0f6fc;\n    \x7d\n    .accent \x7b\n      fill: #58a6ff;\n    \x7d\n    .small \x7b\n      font: 400 11px system-ui, -apple-system, BlinkMacSystemFont, \"Segoe UI\", sans-serif;\n      fill: #6e7681;\n    \x7d\n  </style>\n\n  <!-- fundo geral -->\n  <rect class=\"bg\" x=\"0\" y=\"0\" width=\"495\" height=\"195\" rx=\"16\" />\n\n  <!-- card principal -->\n  <rect class=\"card\" x=\"8\" y=\"8\" width=\"479\" height=\"179\" rx=\"12\" />\n\n  <!-- linha decorativa -->\n  <rect x=\"8\" y=\"8\" width=\"479\" height=\"3\" fill=\"#238636\" />\n\n  <!-- título -->\n  <g transform=\"translate(26, 40)\">\n    <text class=\"title\">GitHub Stats "

/-- Literal run between the heading `{year}` and the subtitle
`{username}`. -/
def svgSeg5 : String := "</text>\n    <text class=\"subtitle\" y=\"18\">@"

/-- Literal run between the subtitle `{username}` and `{fmt(total)}`. -/
def svgSeg6 : String :=
  " · eventos públicos</text>\n  </g>\n\n  <!-- stats -->\n  <g transform=\"translate(26, 88)\">\n    <!-- linha 1 -->\n    <circle class=\"accent\" cx=\"6\" cy=\"-4\" r=\"3\" />\n    <text class=\"label\" x=\"18\" y=\"0\">Eventos no ano</text>\n    <text class=\"value\" x=\"230\" y=\"0\">"

/-- Literal run between `{fmt(total)}` and `{fmt(commits)}`. -/
def svgSeg7 : String :=
  "</text>\n\n    <!-- linha 2 -->\n    <circle class=\"accent\" cx=\"6\" cy=\"20\" r=\"3\" />\n    <text class=\"label\" x=\"18\" y=\"24\">Commits (PushEvent)</text>\n    <text class=\"value\" x=\"230\" y=\"24\">"

/-- Literal run between `{fmt(commits)}` and `{fmt(pushes)}`. -/
def svgSeg8 : String :=
  "</text>\n\n    <!-- linha 3 -->\n    <circle class=\"accent\" cx=\"6\" cy=\"44\" r=\"3\" />\n    <text class=\"label\" x=\"18\" y=\"48\">Push events</text>\n    <text class=\"value\" x=\"230\" y=\"48\">"

/-- Literal run between `{fmt(pushes)}` and `{fmt(prs)}`. -/
def svgSeg9 : String :=
  "</text>\n\n    <!-- linha 4 -->\n    <circle class=\"accent\" cx=\"6\" cy=\"68\" r=\"3\" />\n    <text class=\"label\" x=\"18\" y=\"72\">PRs abertos</text>\n    <text class=\"value\" x=\"230\" y=\"72\">"

/-- Literal run between `{fmt(prs)}` and `{fmt(issues)}`. -/
def svgSeg10 : String :=
  "</text>\n\n    <!-- linha 5 -->\n    <circle class=\"accent\" cx=\"6\" cy=\"92\" r=\"3\" />\n    <text class=\"label\" x=\"18\" y=\"96\">Issues abertas</text>\n    <text class=\"value\" x=\"230\" y=\"96\">"

/-- Literal run between `{fmt(issues)}` and `{fmt(repos)}`. -/
def svgSeg11 : String :=
  "</text>\n\n    <!-- linha 6 -->\n    <circle class=\"accent\" cx=\"6\" cy=\"116\" r=\"3\" />\n    <text class=\"label\" x=\"18\" y=\"120\">Repositórios criados</text>\n    <text class=\"value\" x=\"230\" y=\"120\">"

/-- Literal run after `{fmt(repos)}`: the footer and the closing tag. -/
def svgSeg12 : String :=
  "</text>\n  </g>\n\n  <!-- rodapé -->\n  <g transform=\"translate(26, 174)\">\n    <text class=\"small\">\n      Dados baseados na API pública de eventos do GitHub (últimos ~300 eventos).\n    </text>\n  </g>\n</svg>\n"

/-- The f-string `svg` built by `generate_svg` (lines 126-222 of the
source): the twelve literal runs above interleaved, in source order, with
the eleven interpolated values `{year}` (three times), `{username}`
(twice) and the six `{fmt(...)}` counter values. -/
def svg_content (stats : Stats) (username : String) (year : Int) : String :=
  svgSeg1 ++ toString year ++ svgSeg2 ++ username ++ svgSeg3 ++ toString year
    ++ svgSeg4 ++ toString year ++ svgSeg5 ++ username ++ svgSeg6
    ++ fmt stats.total_events ++ svgSeg7 ++ fmt stats.commits ++ svgSeg8
    ++ fmt stats.push_events ++ svgSeg9 ++ fmt stats.pull_requests_abertos
    ++ svgSeg10 ++ fmt stats.issues_abertas ++ svgSeg11
    ++ fmt stats.repos_criados ++ svgSeg12

/-- One filesystem write, the observable effect of
`open(output_path, "w", encoding="utf-8")` followed by `f.write(svg)`. -/
structure FileWrite where
  path : String
  content : String
deriving DecidableEq

/-- Embeds `generate_svg`: it builds the document `svg_content` and
returns the list of filesystem writes it performs — exactly one, of the
document to `output_path` (default `stats.svg`). -/
def generate_svg (stats : Stats) (username : String) (year : Int)
    (output_path : String := "stats.svg") : List FileWrite :=
  [⟨output_path, svg_content stats username year⟩]

/-- The fetch → aggregate → render composition performed by `main`
(console logging aside): a fetch failure propagates and aggregation and
rendering never run; a successful fetch is aggregated and rendered. -/
def run_pipeline (feed : Nat → HttpResponse) (username : String) (year : Int)
    (max_pages : Nat := 10) (per_page : Nat := 100) :
    Except FetchError (List FileWrite) :=
  match (fetch_events feed username year max_pages per_page).result with
  | .error e => .error e
  | .ok evs => .ok (generate_svg (compute_stats evs) username year)

/-- Does the character list start with the pattern? -/
def listStartsWith : List Char → List Char → Bool
  | [], _ => true
  | _ :: _, [] => false
  | p :: ps, c :: cs => (p == c) && listStartsWith ps cs

/-- Does the pattern occur as a contiguous run somewhere in the list? -/
def occursB (pat : List Char) : List Char → Bool
  | [] => listStartsWith pat []
  | c :: cs => listStartsWith pat (c :: cs) || occursB pat cs

/-- `pat` occurs as a contiguous substring of `s`. -/
def ContainsSub (s pat : String) : Prop := ∃ p q : String, p ++ pat ++ q = s

/-- A push event of 2025 carrying two commits. -/
def pushEvent2025 : RawEvent :=
  ⟨some "PushEvent", some "2025-03-10T12:00:00Z", some ⟨some ["a1", "b2"], none, none⟩⟩

/-- A pull-request event of 2025 whose action is `closed`. -/
def prClosed2025 : RawEvent :=
  ⟨some "PullRequestEvent", some "2025-02-01T08:00:00Z", some ⟨none, some "closed", none⟩⟩

/-- A push event dated in the prior year 2024. -/
def pushEvent2024 : RawEvent :=
  ⟨some "PushEvent", some "2024-12-31T23:59:59Z", some ⟨some ["c3"], none, none⟩⟩

/-- An event whose `created_at` does not parse. -/
def malformedEvent : RawEvent :=
  ⟨some "PushEvent", some "not-a-date", some ⟨some ["d4"], none, none⟩⟩

/-- An issue-opened event of 2025. -/
def issueEvent2025 : RawEvent :=
  ⟨some "IssuesEvent", some "2025-05-05T05:05:05Z", some ⟨none, some "opened", none⟩⟩

/-- A feed whose first page has three items (the third dated 2024) and
whose later pages are empty. -/
def feedOk : Nat → HttpResponse := fun page =>
  if page = 1 then ⟨200, "", [pushEvent2025, prClosed2025, pushEvent2024]⟩
  else ⟨200, "", []⟩

/-- A feed answering 403 to every request. -/
def feed403 : Nat → HttpResponse := fun _ =>
  ⟨403, "API rate limit exceeded", []⟩

/-- A feed whose first page contains a malformed item between two good
2025 items; the second page is empty. -/
def feedWithMalformed : Nat → HttpResponse := fun page =>
  if page = 1 then ⟨200, "", [pushEvent2025, malformedEvent, issueEvent2025]⟩
  else ⟨200, "", []⟩

/-- The same feed with the malformed item removed. -/
def feedWithoutMalformed : Nat → HttpResponse := fun page =>
  if page = 1 then ⟨200, "", [pushEvent2025, issueEvent2025]⟩
  else ⟨200, "", []⟩

/-- An event lets the page scan continue past it when it does not trigger
the early return: its timestamp is missing or unparsable (skipped), or its
parsed year is not strictly below the target. -/
def keepsScanning (year : Int) (e : RawEvent) : Bool :=
  match eventYear e with
  | none => true
  | some ye => year ≤ ye

/-- A counter record with a large total, used as a representative input. -/
def stats250 : Stats := ⟨250, 10, 20, 3, 2, 1⟩

theorem stepStats_total (s : Stats) (e : RawEvent) :
    (stepStats s e).total_events = s.total_events + 1 := by
  simp only [stepStats]
  split <;> split <;> split <;> split <;> rfl

theorem stepStats_push (s : Stats) (e : RawEvent) :
    (stepStats s e).push_events = s.push_events + (if isPushEvent e then 1 else 0) := by
  simp only [stepStats, isPushEvent]
  split <;> split <;> split <;> split <;> simp_all

theorem stepStats_commits (s : Stats) (e : RawEvent) :
    (stepStats s e).commits = s.commits + commitContribution e := by
  simp only [stepStats, commitContribution, isPushEvent]
  split <;> split <;> split <;> split <;> simp_all

theorem stepStats_pr (s : Stats) (e : RawEvent) :
    (stepStats s e).pull_requests_abertos =
      s.pull_requests_abertos + (if isPROpened e then 1 else 0) := by
  simp only [stepStats, isPROpened]
  split <;> split <;> split <;> split <;> simp_all

theorem stepStats_issues (s : Stats) (e : RawEvent) :
    (stepStats s e).issues_abertas =
      s.issues_abertas + (if isIssueOpened e then 1 else 0) := by
  simp only [stepStats, isIssueOpened]
  split <;> split <;> split <;> split <;> simp_all

theorem stepStats_repos (s : Stats) (e : RawEvent) :
    (stepStats s e).repos_criados =
      s.repos_criados + (if isRepoCreated e then 1 else 0) := by
  simp only [stepStats, isRepoCreated]
  split <;> split <;> split <;> split <;> simp_all

theorem foldl_total (l : List RawEvent) :
    ∀ s : Stats, (l.foldl stepStats s).total_events = s.total_events + l.length := by
  induction l with
  | nil => intro s; simp
  | cons e t ih =>
    intro s
    simp only [List.foldl_cons, ih, stepStats_total, List.length_cons]
    omega

theorem foldl_push (l : List RawEvent) :
    ∀ s : Stats, (l.foldl stepStats s).push_events =
      s.push_events + l.countP isPushEvent := by
  induction l with
  | nil => intro s; simp
  | cons e t ih =>
    intro s
    simp only [List.foldl_cons, ih, stepStats_push, List.countP_cons]
    by_cases h : isPushEvent e <;> simp [h] <;> omega

theorem foldl_commits (l : List RawEvent) :
    ∀ s : Stats, (l.foldl stepStats s).commits =
      s.commits + (l.map commitContribution).sum := by
  induction l with
  | nil => intro s; simp
  | cons e t ih =>
    intro s
    simp only [List.foldl_cons, ih, stepStats_commits, List.map_cons, List.sum_cons]
    omega

theorem foldl_pr (l : List RawEvent) :
    ∀ s : Stats, (l.foldl stepStats s).pull_requests_abertos =
      s.pull_requests_abertos + l.countP isPROpened := by
  induction l with
  | nil => intro s; simp
  | cons e t ih =>
    intro s
    simp only [List.foldl_cons, ih, stepStats_pr, List.countP_cons]
    by_cases h : isPROpened e <;> simp [h] <;> omega

theorem foldl_issues (l : List RawEvent) :
    ∀ s : Stats, (l.foldl stepStats s).issues_abertas =
      s.issues_abertas + l.countP isIssueOpened := by
  induction l with
  | nil => intro s; simp
  | cons e t ih =>
    intro s
    simp only [List.foldl_cons, ih, stepStats_issues, List.countP_cons]
    by_cases h : isIssueOpened e <;> simp [h] <;> omega

theorem foldl_repos (l : List RawEvent) :
    ∀ s : Stats, (l.foldl stepStats s).repos_criados =
      s.repos_criados + l.countP isRepoCreated := by
  induction l with
  | nil => intro s; simp
  | cons e t ih =>
    intro s
    simp only [List.foldl_cons, ih, stepStats_repos, List.countP_cons]
    by_cases h : isRepoCreated e <;> simp [h] <;> omega

/-- Closed form of `compute_stats`: every counter is a length, a count or
a sum over the input list. -/
theorem compute_stats_eq (l : List RawEvent) :
    compute_stats l =
      ⟨l.length, l.countP isPushEvent, (l.map commitContribution).sum,
       l.countP isPROpened, l.countP isIssueOpened, l.countP isRepoCreated⟩ := by
  have h1 := foldl_total l initStats
  have h2 := foldl_push l initStats
  have h3 := foldl_commits l initStats
  have h4 := foldl_pr l initStats
  have h5 := foldl_issues l initStats
  have h6 := foldl_repos l initStats
  simp only [initStats, compute_stats] at *
  cases hc : (l.foldl stepStats ⟨0, 0, 0, 0, 0, 0⟩) with
  | mk a b c d e f => simp_all

theorem scanPage_skip (y : Int) (e : RawEvent) (rest : List RawEvent)
    (h : eventYear e = none) : scanPage y (e :: rest) = scanPage y rest := by
  simp [scanPage, h]

theorem scanPage_mem_year (y : Int) (l : List RawEvent) :
    ∀ kept, (scanPage y l = .stop kept ∨ scanPage y l = .next kept) →
      ∀ e ∈ kept, eventYear e = some y := by
  induction l with
  | nil =>
    intro kept h e he
    rcases h with h | h
    · simp [scanPage] at h
    · simp [scanPage] at h
      subst h
      simp at he
  | cons a rest ih =>
    intro kept h e he
    rcases hey : eventYear a with _ | ya
    · exact ih kept (by rwa [scanPage_skip y a rest hey] at h) e he
    · by_cases hya : ya = y
      · rcases hsc : scanPage y rest with k | k
        · have hred : scanPage y (a :: rest) = .stop (a :: k) := by
            simp [scanPage, hey, hya, hsc]
          rw [hred] at h
          rcases h with h | h
          · injection h with h
            rw [← h] at he
            rcases List.mem_cons.mp he with hea | hm
            · rw [hea, hey, hya]
            · exact ih k (Or.inl hsc) e hm
          · exact absurd h (by simp)
        · have hred : scanPage y (a :: rest) = .next (a :: k) := by
            simp [scanPage, hey, hya, hsc]
          rw [hred] at h
          rcases h with h | h
          · exact absurd h (by simp)
          · injection h with h
            rw [← h] at he
            rcases List.mem_cons.mp he with hea | hm
            · rw [hea, hey, hya]
            · exact ih k (Or.inr hsc) e hm
      · by_cases hlt : ya < y
        · have hred : scanPage y (a :: rest) = .stop [] := by
            simp [scanPage, hey, hya, hlt]
          rw [hred] at h
          rcases h with h | h
          · injection h with h
            rw [← h] at he
            simp at he
          · exact absurd h (by simp)
        · have hred : scanPage y (a :: rest) = scanPage y rest := by
            simp [scanPage, hey, hya, hlt]
          exact ih kept (by rwa [hred] at h) e he

theorem scanPage_early_stop (y : Int) (pre : List RawEvent) :
    ∀ (old : RawEvent) (post : List RawEvent) (yo : Int),
      eventYear old = some yo → yo < y → pre.all (keepsScanning y) = true →
      scanPage y (pre ++ old :: post) =
        .stop (pre.filter fun e => eventYear e == some y) := by
  induction pre with
  | nil =>
    intro old post yo h1 h2 _
    have hne : yo ≠ y := by omega
    simp [scanPage, h1, hne, h2]
  | cons a pre ih =>
    intro old post yo h1 h2 hall
    rw [List.all_cons, Bool.and_eq_true] at hall
    rcases hey : eventYear a with _ | ya
    · rw [List.cons_append, scanPage_skip y a _ hey,
        ih old post yo h1 h2 hall.2]
      simp [List.filter_cons, hey]
    · have hya : y ≤ ya := by
        have := hall.1
        rw [keepsScanning, hey] at this
        exact of_decide_eq_true this
      by_cases heq : ya = y
      · subst heq
        rw [List.cons_append]
        simp only [scanPage, hey, if_pos rfl, ih old post yo h1 h2 hall.2]
        simp [List.filter_cons, hey]
      · have hnlt : ¬ ya < y := by omega
        rw [List.cons_append]
        have : scanPage y (a :: (pre ++ old :: post)) =
            scanPage y (pre ++ old :: post) := by
          simp [scanPage, hey, heq, hnlt]
        rw [this, ih old post yo h1 h2 hall.2]
        have : (eventYear a == some y) = false := by
          simp [hey, heq]
        simp [List.filter_cons, this]

theorem fetchLoop_transport (feed : Nat → HttpResponse) (y : Int)
    (fuel page : Nat) (acc : List RawEvent)
    (hs : (feed page).status ≠ 200) :
    fetchLoop feed y (fuel + 1) page acc =
      ⟨.error (.transport (feed page).status (feed page).body), [page]⟩ := by
  simp [fetchLoop, hs]

theorem fetchLoop_stop (feed : Nat → HttpResponse) (y : Int)
    (fuel page : Nat) (acc kept : List RawEvent)
    (hs : (feed page).status = 200) (hne : (feed page).events ≠ [])
    (hscan : scanPage y (feed page).events = .stop kept) :
    fetchLoop feed y (fuel + 1) page acc = ⟨.ok (acc ++ kept), [page]⟩ := by
  simp [fetchLoop, hs, hne, hscan]

theorem fetchLoop_ok_status (feed : Nat → HttpResponse) (y : Int) :
    ∀ (fuel page : Nat) (acc evs : List RawEvent),
      (fetchLoop feed y fuel page acc).result = .ok evs →
      ∀ p ∈ (fetchLoop feed y fuel page acc).pagesRequested,
        (feed p).status = 200 := by
  intro fuel
  induction fuel with
  | zero => intro page acc evs _ p hp; simp [fetchLoop] at hp
  | succ fuel ih =>
    intro page acc evs hok p hp
    by_cases hs : (feed page).status = 200
    · by_cases hne : (feed page).events = []
      · simp [fetchLoop, hs, hne] at hp
        subst hp
        exact hs
      · rcases hscan : scanPage y (feed page).events with kept | kept
        · simp [fetchLoop, hs, hne, hscan] at hp
          subst hp
          exact hs
        · simp only [fetchLoop, hs, hne, hscan] at hok hp
          simp at hok hp
          rcases hp with hp | hp
          · subst hp; exact hs
          · exact ih (page + 1) (acc ++ kept) evs hok p hp
    · rw [fetchLoop_transport feed y fuel page acc hs] at hok
      simp at hok

theorem fetchLoop_ok_mem (feed : Nat → HttpResponse) (y : Int) :
    ∀ (fuel page : Nat) (acc evs : List RawEvent),
      (fetchLoop feed y fuel page acc).result = .ok evs →
      (∀ e ∈ acc, eventYear e = some y) →
      ∀ e ∈ evs, eventYear e = some y := by
  intro fuel
  induction fuel with
  | zero =>
    intro page acc evs hok hacc
    simp [fetchLoop] at hok
    subst hok
    exact hacc
  | succ fuel ih =>
    intro page acc evs hok hacc
    by_cases hs : (feed page).status = 200
    · by_cases hne : (feed page).events = []
      · simp [fetchLoop, hs, hne] at hok
        subst hok
        exact hacc
      · rcases hscan : scanPage y (feed page).events with kept | kept
        · simp [fetchLoop, hs, hne, hscan] at hok
          subst hok
          intro e he
          rcases List.mem_append.mp he with h | h
          · exact hacc e h
          · exact scanPage_mem_year y (feed page).events kept (Or.inl hscan) e h
        · simp only [fetchLoop, hs, hne, hscan] at hok
          simp at hok
          refine ih (page + 1) (acc ++ kept) evs hok ?_
          intro e he
          rcases List.mem_append.mp he with h | h
          · exact hacc e h
          · exact scanPage_mem_year y (feed page).events kept (Or.inr hscan) e h
    · rw [fetchLoop_transport feed y fuel page acc hs] at hok
      simp at hok

theorem containsSub_left (a b v : String) (h : ContainsSub a v) :
    ContainsSub (a ++ b) v := by
  obtain ⟨p, q, hpq⟩ := h
  exact ⟨p, q ++ b, by rw [← hpq]; simp [String.append_assoc]⟩

theorem containsSub_last (a v : String) : ContainsSub (a ++ v) v :=
  ⟨a, "", by simp⟩

theorem listStartsWith_self (pat q : List Char) :
    listStartsWith pat (pat ++ q) = true := by
  induction pat with
  | nil => rfl
  | cons p ps ih => simp [listStartsWith, ih]

theorem occursB_startsWith (pat s : List Char)
    (h : listStartsWith pat s = true) : occursB pat s = true := by
  cases s with
  | nil => simpa [occursB] using h
  | cons c cs => simp [occursB, h]

theorem occursB_append (pat p q : List Char) :
    occursB pat (p ++ (pat ++ q)) = true := by
  induction p with
  | nil => exact occursB_startsWith _ _ (listStartsWith_self pat q)
  | cons c cs ih => simp [occursB, ih]

theorem containsSub_occursB (s pat : String) (h : ContainsSub s pat) :
    occursB pat.data s.data = true := by
  obtain ⟨p, q, hpq⟩ := h
  have hd : s.data = p.data ++ (pat.data ++ q.data) := by
    rw [← hpq]
    simp [List.append_assoc]
  rw [hd]
  exact occursB_append _ _ _

theorem listStartsWith_split (pat : List Char) :
    ∀ s, listStartsWith pat s = true → ∃ t, s = pat ++ t := by
  induction pat with
  | nil => intro s _; exact ⟨s, rfl⟩
  | cons p ps ih =>
    intro s h
    cases s with
    | nil => simp [listStartsWith] at h
    | cons c cs =>
      rw [listStartsWith, Bool.and_eq_true, beq_iff_eq] at h
      obtain ⟨t, ht⟩ := ih cs h.2
      exact ⟨t, by rw [h.1, ht]; rfl⟩

theorem occursB_split (pat : List Char) :
    ∀ s, occursB pat s = true → ∃ p q, s = p ++ (pat ++ q) := by
  intro s
  induction s with
  | nil =>
    intro h
    rw [occursB] at h
    obtain ⟨t, ht⟩ := listStartsWith_split pat [] h
    exact ⟨[], t, ht⟩
  | cons c cs ih =>
    intro h
    rw [occursB, Bool.or_eq_true] at h
    rcases h with h | h
    · obtain ⟨t, ht⟩ := listStartsWith_split pat (c :: cs) h
      exact ⟨[], t, ht⟩
    · obtain ⟨p, q, hpq⟩ := ih h
      exact ⟨c :: p, q, by rw [hpq]; rfl⟩

theorem containsSub_of_occursB (s pat : String)
    (h : occursB pat.data s.data = true) : ContainsSub s pat := by
  obtain ⟨p, q, hpq⟩ := occursB_split pat.data s.data h
  refine ⟨⟨p⟩, ⟨q⟩, ?_⟩
  apply String.ext
  simpa [List.append_assoc] using hpq.symm

/-- C5: for every configuration with an empty username, `fetch_events`
fails with the validation error before issuing any page request: the
outcome is the `ValueError` message of line 20 and the request trace is
empty, whatever the feed, year, page ceiling and page size are. -/
theorem fetch_empty_username_validation :
    ∀ (feed : Nat → HttpResponse) (year : Int) (max_pages per_page : Nat),
      fetch_events feed "" year max_pages per_page =
        ⟨.error (.validation "USERNAME não pode ser vazio."), []⟩ := by
  intro feed year max_pages per_page
  rfl

/-- C4: a non-success status on any requested page fails the whole fetch
with a transport error. Concretely: (a) if a fetch succeeds, every page it
requested answered 200 (contrapositive: a non-200 on a requested page
forbids success, so no partial result is returned); (b) a non-200 on
page 1 yields exactly the transport error carrying that status and body,
after requesting only page 1; (c) a fetch error propagates through the
pipeline, so aggregation and rendering never run on a failed fetch. -/
theorem fetch_transport_failure :
    ∀ (feed : Nat → HttpResponse) (u : String) (y : Int) (mp pp : Nat),
      u ≠ "" →
      ((∀ evs, (fetch_events feed u y mp pp).result = .ok evs →
          ∀ p ∈ (fetch_events feed u y mp pp).pagesRequested,
            (feed p).status = 200) ∧
       (1 ≤ mp → (feed 1).status ≠ 200 →
          fetch_events feed u y mp pp =
            ⟨.error (.transport (feed 1).status (feed 1).body), [1]⟩) ∧
       (∀ e, (fetch_events feed u y mp pp).result = .error e →
          run_pipeline feed u y mp pp = .error e)) := by
  intro feed u y mp pp hu
  refine ⟨?_, ?_, ?_⟩
  · intro evs hok p hp
    rw [fetch_events, if_neg hu] at hok hp
    exact fetchLoop_ok_status feed y mp 1 [] evs hok p hp
  · intro hmp hs
    obtain ⟨f, rfl⟩ : ∃ f, mp = f + 1 := ⟨mp - 1, by omega⟩
    rw [fetch_events, if_neg hu]
    exact fetchLoop_transport feed y f 1 [] hs
  · intro e herr
    rw [run_pipeline, herr]

/-- Closed witness for C4: the 403 feed at page 1 makes the fetch fail
with the transport error carrying status 403 and the response body, and
the pipeline propagates it. -/
theorem fetch_transport_failure_witness :
    ("BrunoDrezza" ≠ "" ∧ 1 ≤ 10 ∧ (feed403 1).status ≠ 200) ∧
    fetch_events feed403 "BrunoDrezza" 2025 10 100 =
      ⟨.error (.transport 403 "API rate limit exceeded"), [1]⟩ ∧
    run_pipeline feed403 "BrunoDrezza" 2025 10 100 =
      .error (.transport 403 "API rate limit exceeded") := by
  have h := fetch_transport_failure feed403 "BrunoDrezza" 2025 10 100 (by decide)
  have h1 := h.2.1 (by decide) (by decide)
  exact ⟨⟨by decide, by decide, by decide⟩, h1,
    h.2.2 (.transport 403 "API rate limit exceeded") (by rw [h1]; rfl)⟩

/-- C1: early termination on an older-year item. (a) If a page consists of
items that keep the scan going followed by an item strictly older than the
target year, the scan stops at that item, keeps exactly the in-year items
seen before it, and its result does not depend on the remainder of the
page. (b) If the scan of a requested page stops, the loop returns the
accumulated events immediately after that single page request — no
further page is requested, whatever the feed holds beyond it. (c) No
event with year strictly below the target occurs in a returned sequence. -/
theorem fetch_early_termination :
    ∀ (y : Int),
      (∀ (pre : List RawEvent) (old : RawEvent) (post post' : List RawEvent)
          (yo : Int),
        eventYear old = some yo → yo < y → pre.all (keepsScanning y) = true →
        scanPage y (pre ++ old :: post) =
          .stop (pre.filter fun e => eventYear e == some y) ∧
        scanPage y (pre ++ old :: post) = scanPage y (pre ++ old :: post')) ∧
      (∀ (feed : Nat → HttpResponse) (fuel page : Nat) (acc kept : List RawEvent),
        (feed page).status = 200 → (feed page).events ≠ [] →
        scanPage y (feed page).events = .stop kept →
        fetchLoop feed y (fuel + 1) page acc = ⟨.ok (acc ++ kept), [page]⟩) ∧
      (∀ (feed : Nat → HttpResponse) (u : String) (mp pp : Nat)
          (evs : List RawEvent),
        (fetch_events feed u y mp pp).result = .ok evs →
        ∀ e ∈ evs, ¬ ∃ ye, eventYear e = some ye ∧ ye < y) := by
  intro y
  refine ⟨?_, ?_, ?_⟩
  · intro pre old post post' yo h1 h2 h3
    have ha := scanPage_early_stop y pre old post yo h1 h2 h3
    have hb := scanPage_early_stop y pre old post' yo h1 h2 h3
    exact ⟨ha, ha.trans hb.symm⟩
  · intro feed fuel page acc kept hs hne hscan
    exact fetchLoop_stop feed y fuel page acc kept hs hne hscan
  · intro feed u mp pp evs hok e he hex
    by_cases hu : u = ""
    · rw [fetch_events, if_pos hu] at hok
      simp at hok
    · rw [fetch_events, if_neg hu] at hok
      have hy := fetchLoop_ok_mem feed y mp 1 [] evs hok (by simp) e he
      obtain ⟨ye, hye, hlt⟩ := hex
      rw [hy] at hye
      injection hye with hye
      omega

/-- Closed witness for C1: on the three-item page whose last item is dated
2024, the 2025 scan stops early and keeps exactly the two in-year items. -/
theorem fetch_early_termination_witness :
    (eventYear pushEvent2024 = some 2024 ∧ (2024 : Int) < 2025 ∧
      [pushEvent2025, prClosed2025].all (keepsScanning 2025) = true) ∧
    scanPage 2025 ([pushEvent2025, prClosed2025] ++ pushEvent2024 :: []) =
      .stop ([pushEvent2025, prClosed2025].filter
        fun e => eventYear e == some 2025) := by
  refine ⟨⟨by decide, by decide, by decide⟩, ?_⟩
  exact ((fetch_early_termination 2025).1 [pushEvent2025, prClosed2025]
    pushEvent2024 [] [] 2024 (by decide) (by decide) (by decide)).1

/-- C8 counterexample: two feeds that differ only by one malformed item
produce literally identical fetch outcomes (same result, same request
trace). `fetch_events` exposes no other state, so the number of dropped
items is not observable as a diagnostics count anywhere: the code keeps no
such count (the malformed item is silently `continue`d over). -/
theorem malformed_count_unobservable_cex :
    fetch_events feedWithMalformed "BrunoDrezza" 2025 10 100 =
      fetch_events feedWithoutMalformed "BrunoDrezza" 2025 10 100 ∧
    (fetch_events feedWithMalformed "BrunoDrezza" 2025 10 100).result =
      .ok [pushEvent2025, issueEvent2025] :=
  ⟨rfl, rfl⟩

/-- C8 (amended): an item with a missing or unparsable `createdAt` is
skipped — it does not appear in the returned sequence and does not fail
the run — but the code keeps no diagnostics count of dropped items: the
page scan is simply unchanged by the malformed item, and a concrete fetch
over a feed containing one still succeeds with only the well-formed
in-year items. -/
theorem malformed_item_skipped :
    (∀ (y : Int) (e : RawEvent) (rest : List RawEvent),
      eventYear e = none → scanPage y (e :: rest) = scanPage y rest) ∧
    eventYear malformedEvent = none ∧
    (fetch_events feedWithMalformed USERNAME 2025 10 100).result =
      .ok [pushEvent2025, issueEvent2025] :=
  ⟨fun y e rest h => scanPage_skip y e rest h, rfl, rfl⟩

/-- Closed witness for C8: the malformed event is skipped by a concrete
page scan. -/
theorem malformed_item_skipped_witness :
    eventYear malformedEvent = none ∧
    scanPage 2025 (malformedEvent :: [issueEvent2025]) =
      scanPage 2025 [issueEvent2025] :=
  ⟨by decide, malformed_item_skipped.1 2025 malformedEvent [issueEvent2025]
    (by decide)⟩

/-- C6: aggregation of the empty sequence yields all six counters zero,
and `compute_stats` is invariant under any permutation of its input: each
counter is a length, a count or a sum over the list, none of which depends
on order. -/
theorem aggregate_perm_invariant :
    compute_stats [] = ⟨0, 0, 0, 0, 0, 0⟩ ∧
    ∀ (l l' : List RawEvent), l.Perm l' → compute_stats l = compute_stats l' := by
  refine ⟨rfl, ?_⟩
  intro l l' h
  rw [compute_stats_eq, compute_stats_eq, h.length_eq,
    List.Perm.countP_eq isPushEvent h, List.Perm.countP_eq isPROpened h,
    List.Perm.countP_eq isIssueOpened h, List.Perm.countP_eq isRepoCreated h,
    (h.map commitContribution).sum_eq]

/-- Closed witness for C6: swapping two concrete events leaves the
counter record unchanged. -/
theorem aggregate_perm_invariant_witness :
    ([pushEvent2025, issueEvent2025].Perm [issueEvent2025, pushEvent2025]) ∧
    compute_stats [pushEvent2025, issueEvent2025] =
      compute_stats [issueEvent2025, pushEvent2025] := by
  have hp : [pushEvent2025, issueEvent2025].Perm [issueEvent2025, pushEvent2025] :=
    List.Perm.swap issueEvent2025 pushEvent2025 []
  exact ⟨hp, aggregate_perm_invariant.2 _ _ hp⟩

/-- C7: for every input sequence, `total_events` equals the input length,
`push_events ≤ total_events`, and `commits ≥ 0`; moreover commits bears no
fixed relation to pushes — one push can carry zero commits or two. -/
theorem aggregate_counter_invariants :
    (∀ l : List RawEvent,
      (compute_stats l).total_events = l.length ∧
      (compute_stats l).push_events ≤ (compute_stats l).total_events ∧
      0 ≤ (compute_stats l).commits) ∧
    (∃ l : List RawEvent,
      (compute_stats l).push_events = 1 ∧ (compute_stats l).commits = 0) ∧
    (∃ l : List RawEvent,
      (compute_stats l).push_events = 1 ∧ (compute_stats l).commits = 2) := by
  refine ⟨?_, ⟨[⟨some "PushEvent", none, none⟩], by decide⟩,
    ⟨[pushEvent2025], by decide⟩⟩
  intro l
  rw [compute_stats_eq]
  exact ⟨rfl, List.countP_le_length _, Nat.zero_le _⟩

theorem event_hits_le_one (e : RawEvent) :
    (if isPushEvent e then 1 else 0) + (if isPROpened e then 1 else 0) +
      (if isIssueOpened e then 1 else 0) + (if isRepoCreated e then 1 else 0) ≤ 1 := by
  by_cases hp : isPushEvent e
  · have hp' : e.type = some "PushEvent" := of_decide_eq_true hp
    have h2 : isPROpened e = false := by
      rw [isPROpened, decide_eq_false_iff_not]
      rintro ⟨hpr, _⟩
      rw [hp'] at hpr
      injection hpr with hpr
      exact absurd hpr (by decide)
    have h3 : isIssueOpened e = false := by
      rw [isIssueOpened, decide_eq_false_iff_not]
      rintro ⟨hpr, _⟩
      rw [hp'] at hpr
      injection hpr with hpr
      exact absurd hpr (by decide)
    have h4 : isRepoCreated e = false := by
      rw [isRepoCreated, decide_eq_false_iff_not]
      rintro ⟨hpr, _⟩
      rw [hp'] at hpr
      injection hpr with hpr
      exact absurd hpr (by decide)
    simp [hp, h2, h3, h4]
  · by_cases hq : isPROpened e
    · have hq' : e.type = some "PullRequestEvent" :=
        (of_decide_eq_true hq).1
      have h3 : isIssueOpened e = false := by
        rw [isIssueOpened, decide_eq_false_iff_not]
        rintro ⟨hpr, _⟩
        rw [hq'] at hpr
        injection hpr with hpr
        exact absurd hpr (by decide)
      have h4 : isRepoCreated e = false := by
        rw [isRepoCreated, decide_eq_false_iff_not]
        rintro ⟨hpr, _⟩
        rw [hq'] at hpr
        injection hpr with hpr
        exact absurd hpr (by decide)
      simp [hp, hq, h3, h4]
    · by_cases hr : isIssueOpened e
      · have hr' : e.type = some "IssuesEvent" := (of_decide_eq_true hr).1
        have h4 : isRepoCreated e = false := by
          rw [isRepoCreated, decide_eq_false_iff_not]
          rintro ⟨hpr, _⟩
          rw [hr'] at hpr
          injection hpr with hpr
          exact absurd hpr (by decide)
        simp [hp, hq, hr, h4]
      · by_cases hs : isRepoCreated e <;> simp [hp, hq, hr, hs]

theorem countP_four_le_length (l : List RawEvent) :
    l.countP isPushEvent + l.countP isPROpened + l.countP isIssueOpened +
      l.countP isRepoCreated ≤ l.length := by
  induction l with
  | nil => simp
  | cons e t ih =>
    simp only [List.countP_cons, List.length_cons]
    have := event_hits_le_one e
    omega

/-- C10: each event increments at most one of the four specialized
counters — the four type tests are mutually exclusive on a single type
string — and consequently the four specialized counters sum to at most
`total_events` for every input sequence. -/
theorem specialized_counters_disjoint :
    (∀ e : RawEvent,
      (if isPushEvent e then 1 else 0) + (if isPROpened e then 1 else 0) +
        (if isIssueOpened e then 1 else 0) + (if isRepoCreated e then 1 else 0) ≤ 1) ∧
    (∀ l : List RawEvent,
      (compute_stats l).push_events + (compute_stats l).pull_requests_abertos +
        (compute_stats l).issues_abertas + (compute_stats l).repos_criados ≤
        (compute_stats l).total_events) := by
  refine ⟨event_hits_le_one, ?_⟩
  intro l
  rw [compute_stats_eq]
  simpa using countP_four_le_length l

/-- C9: for every counter record, username and year, the rendered document
contains the decimal rendering of all six counters (grouped in threes from
the least-significant end with the fixed separator `.`, as the closed
`fmt` equations illustrate), the literal username, and the year. -/
theorem render_embeds_counters :
    ∀ (stats : Stats) (username : String) (year : Int),
      ContainsSub (svg_content stats username year) (fmt stats.total_events) ∧
      ContainsSub (svg_content stats username year) (fmt stats.commits) ∧
      ContainsSub (svg_content stats username year) (fmt stats.push_events) ∧
      ContainsSub (svg_content stats username year) (fmt stats.pull_requests_abertos) ∧
      ContainsSub (svg_content stats username year) (fmt stats.issues_abertas) ∧
      ContainsSub (svg_content stats username year) (fmt stats.repos_criados) ∧
      ContainsSub (svg_content stats username year) username ∧
      ContainsSub (svg_content stats username year) (toString year) ∧
      fmt 1234567 = "1.234.567" ∧ fmt 0 = "0" := by
  intro stats username year
  refine ⟨⟨svgSeg1 ++ toString year ++ svgSeg2 ++ username ++ svgSeg3
      ++ toString year ++ svgSeg4 ++ toString year ++ svgSeg5 ++ username
      ++ svgSeg6,
    svgSeg7 ++ fmt stats.commits ++ svgSeg8 ++ fmt stats.push_events
      ++ svgSeg9 ++ fmt stats.pull_requests_abertos ++ svgSeg10
      ++ fmt stats.issues_abertas ++ svgSeg11 ++ fmt stats.repos_criados
      ++ svgSeg12, ?_⟩,
    ⟨svgSeg1 ++ toString year ++ svgSeg2 ++ username ++ svgSeg3
      ++ toString year ++ svgSeg4 ++ toString year ++ svgSeg5 ++ username
      ++ svgSeg6 ++ fmt stats.total_events ++ svgSeg7,
    svgSeg8 ++ fmt stats.push_events ++ svgSeg9
      ++ fmt stats.pull_requests_abertos ++ svgSeg10
      ++ fmt stats.issues_abertas ++ svgSeg11 ++ fmt stats.repos_criados
      ++ svgSeg12, ?_⟩,
    ⟨svgSeg1 ++ toString year ++ svgSeg2 ++ username ++ svgSeg3
      ++ toString year ++ svgSeg4 ++ toString year ++ svgSeg5 ++ username
      ++ svgSeg6 ++ fmt stats.total_events ++ svgSeg7 ++ fmt stats.commits
      ++ svgSeg8,
    svgSeg9 ++ fmt stats.pull_requests_abertos ++ svgSeg10
      ++ fmt stats.issues_abertas ++ svgSeg11 ++ fmt stats.repos_criados
      ++ svgSeg12, ?_⟩,
    ⟨svgSeg1 ++ toString year ++ svgSeg2 ++ username ++ svgSeg3
      ++ toString year ++ svgSeg4 ++ toString year ++ svgSeg5 ++ username
      ++ svgSeg6 ++ fmt stats.total_events ++ svgSeg7 ++ fmt stats.commits
      ++ svgSeg8 ++ fmt stats.push_events ++ svgSeg9,
    svgSeg10 ++ fmt stats.issues_abertas ++ svgSeg11
      ++ fmt stats.repos_criados ++ svgSeg12, ?_⟩,
    ⟨svgSeg1 ++ toString year ++ svgSeg2 ++ username ++ svgSeg3
      ++ toString year ++ svgSeg4 ++ toString year ++ svgSeg5 ++ username
      ++ svgSeg6 ++ fmt stats.total_events ++ svgSeg7 ++ fmt stats.commits
      ++ svgSeg8 ++ fmt stats.push_events ++ svgSeg9
      ++ fmt stats.pull_requests_abertos ++ svgSeg10,
    svgSeg11 ++ fmt stats.repos_criados ++ svgSeg12, ?_⟩,
    ⟨svgSeg1 ++ toString year ++ svgSeg2 ++ username ++ svgSeg3
      ++ toString year ++ svgSeg4 ++ toString year ++ svgSeg5 ++ username
      ++ svgSeg6 ++ fmt stats.total_events ++ svgSeg7 ++ fmt stats.commits
      ++ svgSeg8 ++ fmt stats.push_events ++ svgSeg9
      ++ fmt stats.pull_requests_abertos ++ svgSeg10
      ++ fmt stats.issues_abertas ++ svgSeg11,
    svgSeg12, ?_⟩,
    ⟨svgSeg1 ++ toString year ++ svgSeg2 ++ username ++ svgSeg3
      ++ toString year ++ svgSeg4 ++ toString year ++ svgSeg5,
    svgSeg6 ++ fmt stats.total_events ++ svgSeg7 ++ fmt stats.commits
      ++ svgSeg8 ++ fmt stats.push_events ++ svgSeg9
      ++ fmt stats.pull_requests_abertos ++ svgSeg10
      ++ fmt stats.issues_abertas ++ svgSeg11 ++ fmt stats.repos_criados
      ++ svgSeg12, ?_⟩,
    ⟨svgSeg1,
    svgSeg2 ++ username ++ svgSeg3 ++ toString year ++ svgSeg4
      ++ toString year ++ svgSeg5 ++ username ++ svgSeg6
      ++ fmt stats.total_events ++ svgSeg7 ++ fmt stats.commits ++ svgSeg8
      ++ fmt stats.push_events ++ svgSeg9 ++ fmt stats.pull_requests_abertos
      ++ svgSeg10 ++ fmt stats.issues_abertas ++ svgSeg11
      ++ fmt stats.repos_criados ++ svgSeg12, ?_⟩,
    rfl, rfl⟩ <;>
  simp only [svg_content, String.append_assoc]

/-- C2 counterexample: `generate_svg` does perform filesystem access — it
writes the rendered document to `output_path` (source lines 223-224), so
the write list of a concrete call is nonempty, contradicting the claim
that the render component performs no filesystem access. -/
theorem render_filesystem_write_cex :
    generate_svg initStats USERNAME 2025 "stats.svg" =
      [⟨"stats.svg", svg_content initStats USERNAME 2025⟩] ∧
    generate_svg initStats USERNAME 2025 "stats.svg" ≠ ([] : List FileWrite) :=
  ⟨rfl, by simp [generate_svg]⟩

/-- C2 (amended): the document construction is a pure, total,
deterministic function of the counter record, username and year — the
same inputs always give the byte-identical document, and no network or
environment access occurs — but `generate_svg` performs exactly one
filesystem access: the single write of that document to `output_path`. -/
theorem render_single_write :
    ∀ (stats : Stats) (username : String) (year : Int) (output_path : String),
      generate_svg stats username year output_path =
        [⟨output_path, svg_content stats username year⟩] := by
  intro stats username year output_path
  rfl

/-- C3 counterexample: the claim requires a circular progress indicator
whose unfilled arc is exposed as a stroke-dash offset, fully unfilled at
`totalEvents = 0`; but the document rendered for the all-zero counter
record contains no `stroke-dashoffset` attribute at all — no progress
indicator exists in the output. -/
theorem render_no_dashoffset_cex :
    ¬ ContainsSub (svg_content initStats USERNAME 2025) "stroke-dashoffset" := by
  intro h
  have h1 := containsSub_occursB _ _ h
  have h2 : occursB "stroke-dashoffset".data
      (svg_content initStats USERNAME 2025).data = false := by decide
  rw [h2] at h1
  exact Bool.noConfusion h1

/-- C3 (amended): `generate_svg` computes no activity percent and renders
no circular progress indicator: at `totalEvents = 0` and at
`totalEvents = 250` (beyond the claimed reference scale of 100) the output
contains no `stroke-dash` attribute of any kind; the only circle elements
are fixed decorative bullets of radius 3. -/
theorem render_no_progress_arc :
    ¬ ContainsSub (svg_content initStats USERNAME 2025) "stroke-dash" ∧
    ¬ ContainsSub (svg_content stats250 USERNAME 2025) "stroke-dash" ∧
    ContainsSub (svg_content initStats USERNAME 2025)
      "<circle class=\"accent\" cx=\"6\" cy=\"-4\" r=\"3\" />" := by
  refine ⟨?_, ?_, ?_⟩
  · intro h
    have h1 := containsSub_occursB _ _ h
    have h2 : occursB "stroke-dash".data
        (svg_content initStats USERNAME 2025).data = false := by decide
    rw [h2] at h1
    exact Bool.noConfusion h1
  · intro h
    have h1 := containsSub_occursB _ _ h
    have h2 : occursB "stroke-dash".data
        (svg_content stats250 USERNAME 2025).data = false := by decide
    rw [h2] at h1
    exact Bool.noConfusion h1
  · exact containsSub_of_occursB _ _ (by decide)

end GenStats
